import Mathlib

/-!
Verification of the zoopaloola physics/collision engine
(`src/game/GameEngine.ts`, driver `src/hooks/usePhysics.ts`).

Numbers are modelled as rationals.  JavaScript's `Math.sqrt` is a floating
point operation with no exact rational counterpart, so every engine function
that calls it takes a square-root function `sq : ℚ → ℚ` as an explicit
parameter; theorems that need exactness of a particular square root state it
as a hypothesis, and concrete evaluations use `sqrtQ` below, which is exact
whenever the numerator and denominator of its argument are perfect squares
(which covers every square root taken in the concrete states used here).
-/

namespace Zoo

/-- Newton iteration for the integer square root (floor), fuel-driven so that
it reduces in the kernel. -/
def isqrtGo : Nat → Nat → Nat → Nat
  | 0, _, x => x
  | fuel + 1, n, x =>
    let y := (x + n / x) / 2
    if y < x then isqrtGo fuel n y else x

/-- Integer square root (floor). -/
def isqrt (n : Nat) : Nat :=
  if n ≤ 1 then n else isqrtGo 64 n n

/-- Concrete square-root function on ℚ used for evaluating the model: exact
whenever numerator and denominator are perfect squares, a floor-style
approximation otherwise, 0 on non-positive inputs. -/
def sqrtQ (q : ℚ) : ℚ :=
  if q ≤ 0 then 0 else (isqrt q.num.natAbs : ℚ) / (isqrt q.den : ℚ)

/-- `Math.min` on the rationals. -/
def mathMin (a b : ℚ) : ℚ := if a ≤ b then a else b

/-- `Math.sign`. -/
def mathSign (q : ℚ) : ℚ :=
  if 0 < q then 1 else if q < 0 then -1 else 0

/-- 2D vector (source class `Vec2`). -/
structure Vec2 where
  x : ℚ
  y : ℚ
deriving DecidableEq

namespace Vec2

def add (a b : Vec2) : Vec2 := ⟨a.x + b.x, a.y + b.y⟩

def sub (a b : Vec2) : Vec2 := ⟨a.x - b.x, a.y - b.y⟩

def mult (a : Vec2) (n : ℚ) : Vec2 := ⟨a.x * n, a.y * n⟩

/-- `mag()` — `Math.sqrt(x*x + y*y)` with the square root abstracted. -/
def mag (sq : ℚ → ℚ) (a : Vec2) : ℚ := sq (a.x * a.x + a.y * a.y)

/-- `norm()` — returns the zero vector when the magnitude is zero. -/
def norm (sq : ℚ → ℚ) (a : Vec2) : Vec2 :=
  let m := mag sq a
  if m = 0 then ⟨0, 0⟩ else mult a (1 / m)

/-- `dist(v)` — `Math.sqrt((x-vx)^2 + (y-vy)^2)`. -/
def dist (sq : ℚ → ℚ) (a b : Vec2) : ℚ :=
  sq ((a.x - b.x) * (a.x - b.x) + (a.y - b.y) * (a.y - b.y))

def dot (a b : Vec2) : ℚ := a.x * b.x + a.y * b.y

end Vec2

inductive WallType where
  | vertical
  | horizontal
deriving DecidableEq

/-- Static axis-aligned wall rectangle (center position, width, height). -/
structure Wall where
  pos : Vec2
  w : ℚ
  h : ℚ
  type : WallType
deriving DecidableEq

/-- Ball (source interface `Ball`); the source field `rotation` is named
`rot` here. -/
structure Ball where
  id : Int
  player : Int
  pos : Vec2
  vel : Vec2
  r : ℚ
  isDead : Bool
  scale : ℚ
  rot : ℚ
  animOffset : ℚ
deriving DecidableEq

def dummyBall : Ball :=
  ⟨0, 0, ⟨0, 0⟩, ⟨0, 0⟩, 0, false, 0, 0, 0⟩

/-- Array indexing `balls[i]` (the source only indexes in bounds). -/
def getB (bs : List Ball) (i : Nat) : Ball := bs.getD i dummyBall

structure Scores where
  p1 : Int
  p2 : Int
deriving DecidableEq

inductive Status where
  | waiting
  | playing
  | finished
deriving DecidableEq

inductive GameEvent where
  | hit
  | wall
  | win
  | splash (player : Int)
deriving DecidableEq

structure GameState where
  balls : List Ball
  walls : List Wall
  turn : Int
  scores : Scores
  status : Status
  winner : Option Int
deriving DecidableEq

structure Bounds where
  width : ℚ
  height : ℚ
  cx : ℚ
  cy : ℚ
  rx : ℚ
  ry : ℚ
deriving DecidableEq

structure GameEngine where
  bounds : Bounds
  walls : List Wall
deriving DecidableEq

/-- Engine constants. -/
def FRICTION : ℚ := 197 / 200

def WALL_BOUNCE : ℚ := 7 / 10

def BALL_BOUNCE : ℚ := 17 / 20

def MIN_VELOCITY : ℚ := 1 / 20

/-- Bounds computation from the `GameEngine` constructor. -/
def mkBounds (width height : ℚ) : Bounds :=
  let padding : ℚ := 50
  let maxWidth : ℚ := 800
  let w := mathMin (width - padding) maxWidth
  let h := mathMin (height - padding) (w * (7 / 10))
  ⟨w, h, width / 2, height / 2, w / 2, h / 2⟩

/-- `createWalls`. -/
def createWalls (b : Bounds) : List Wall :=
  let wallThick : ℚ := 35
  let wallLen := b.rx * (11 / 10)
  [ ⟨⟨b.cx - b.rx, b.cy⟩, wallThick, wallLen, WallType.vertical⟩,
    ⟨⟨b.cx + b.rx, b.cy⟩, wallThick, wallLen, WallType.vertical⟩,
    ⟨⟨b.cx, b.cy - b.ry⟩, wallLen * (6 / 10), wallThick, WallType.horizontal⟩,
    ⟨⟨b.cx, b.cy + b.ry⟩, wallLen * (6 / 10), wallThick, WallType.horizontal⟩ ]

/-- `new GameEngine(width, height)`. -/
def mkEngine (width height : ℚ) : GameEngine :=
  let b := mkBounds width height
  ⟨b, createWalls b⟩

/-- Closest-point x coordinate of a wall rectangle to the ball center
(the clamping at the top of `checkWallCollision`). -/
def wallTestX (b : Ball) (w : Wall) : ℚ :=
  let rx := w.pos.x - w.w / 2
  if b.pos.x < rx then rx
  else if b.pos.x > rx + w.w then rx + w.w
  else b.pos.x

def wallTestY (b : Ball) (w : Wall) : ℚ :=
  let ry := w.pos.y - w.h / 2
  if b.pos.y < ry then ry
  else if b.pos.y > ry + w.h then ry + w.h
  else b.pos.y

def wallDistX (b : Ball) (w : Wall) : ℚ := b.pos.x - wallTestX b w

def wallDistY (b : Ball) (w : Wall) : ℚ := b.pos.y - wallTestY b w

def wallDistance (sq : ℚ → ℚ) (b : Ball) (w : Wall) : ℚ :=
  sq (wallDistX b w * wallDistX b w + wallDistY b w * wallDistY b w)

/-- The axis-aligned collision normal chosen for the velocity response. -/
def wallNormal (b : Ball) (w : Wall) : Vec2 :=
  if |wallDistX b w| > |wallDistY b w| then ⟨mathSign (wallDistX b w), 0⟩
  else ⟨0, mathSign (wallDistY b w)⟩

/-- `checkWallCollision`, returning the updated ball and the events pushed. -/
def checkWallCollision (sq : ℚ → ℚ) (b : Ball) (w : Wall) :
    Ball × List GameEvent :=
  let distX := wallDistX b w
  let distY := wallDistY b w
  let distance := wallDistance sq b w
  if distance ≤ b.r then
    let overlap := b.r - distance
    let nx := if distance = 0 then 1 else distX / distance
    let ny := if distance = 0 then 0 else distY / distance
    let b1 : Ball := { b with pos := ⟨b.pos.x + nx * overlap, b.pos.y + ny * overlap⟩ }
    let n := wallNormal b w
    let vDotN := Vec2.dot b1.vel n
    if vDotN < 0 then
      ({ b1 with vel := Vec2.mult (Vec2.sub b1.vel (Vec2.mult n (2 * vDotN))) WALL_BOUNCE },
        [GameEvent.wall])
    else (b1, [])
  else (b, [])

/-- Integration part of the per-ball update: `pos += vel`, friction,
cosmetic rotation from the post-friction velocity, and the velocity floor. -/
def integrateBall (sq : ℚ → ℚ) (b : Ball) : Ball :=
  let p := Vec2.add b.pos b.vel
  let v := Vec2.mult b.vel FRICTION
  let rot := b.rot + v.x * (1 / 10)
  let v2 := if Vec2.mag sq v < MIN_VELOCITY then (⟨0, 0⟩ : Vec2) else v
  { b with pos := p, vel := v2, rot := rot }

/-- `this.walls.forEach(w => this.checkWallCollision(b, w))`. -/
def ballWalls (e : GameEngine) (sq : ℚ → ℚ) (b : Ball) : Ball × List GameEvent :=
  e.walls.foldl
    (fun (acc : Ball × List GameEvent) w =>
      let r := checkWallCollision sq acc.1 w
      (r.1, acc.2 ++ r.2)) (b, [])

/-- Is the ball's center outside the arena rectangle? -/
def outOfBounds (e : GameEngine) (b : Ball) : Prop :=
  b.pos.x < e.bounds.cx - e.bounds.rx ∨ b.pos.x > e.bounds.cx + e.bounds.rx ∨
    b.pos.y < e.bounds.cy - e.bounds.ry ∨ b.pos.y > e.bounds.cy + e.bounds.ry

instance (e : GameEngine) (b : Ball) : Decidable (outOfBounds e b) := by
  unfold outOfBounds
  infer_instance

/-- The bounds/elimination check at the end of the per-ball update. -/
def boundsCheck (e : GameEngine) (br : Ball × List GameEvent) : Ball × List GameEvent :=
  if outOfBounds e br.1 then
    if br.1.isDead then br
    else ({ br.1 with isDead := true }, br.2 ++ [GameEvent.splash br.1.player])
  else br

/-- The per-ball body of `update`'s `forEach`: scale decay for dead balls;
integration, wall collisions and the bounds/elimination check for living
ones. -/
def ballPhase (e : GameEngine) (sq : ℚ → ℚ) (b : Ball) : Ball × List GameEvent :=
  if b.isDead then
    ({ b with scale := if 0 < b.scale then b.scale - 1 / 10 else b.scale }, [])
  else boundsCheck e (ballWalls e sq (integrateBall sq b))

/-- The `newState.balls.forEach(...)` pass of `update`. -/
def updateBalls (e : GameEngine) (sq : ℚ → ℚ) : List Ball → List Ball × List GameEvent
  | [] => ([], [])
  | b :: bs =>
    let r := ballPhase e sq b
    let rest := updateBalls e sq bs
    (r.1 :: rest.1, r.2 ++ rest.2)

/-- One static (positional) resolution of the pair at indices `i < j`. -/
def staticPair (sq : ℚ → ℚ) (bs : List Ball) (i j : Nat) : List Ball :=
  let b1 := getB bs i
  let b2 := getB bs j
  if b1.isDead || b2.isDead then bs
  else
    let distV := Vec2.sub b1.pos b2.pos
    let dist := Vec2.mag sq distV
    let minDist := b1.r + b2.r
    if dist < minDist then
      let overlap := minDist - dist
      let n := Vec2.norm sq distV
      let c := Vec2.mult n (overlap * (51 / 100))
      (bs.set i { b1 with pos := Vec2.add b1.pos c }).set j
        { b2 with pos := Vec2.sub b2.pos c }
    else bs

/-- The collision normal `n` of the dynamic resolution. -/
def collNormal (sq : ℚ → ℚ) (b1 b2 : Ball) : Vec2 :=
  Vec2.norm sq (Vec2.sub b1.pos b2.pos)

/-- The relative speed `speed = vRel.dot(n)` of the dynamic resolution. -/
def relSpeed (sq : ℚ → ℚ) (b1 b2 : Ball) : ℚ :=
  Vec2.dot (Vec2.sub b1.vel b2.vel) (collNormal sq b1 b2)

/-- The body of the dynamic (impulse) resolution for one pair of balls. -/
def resolveDynamic (sq : ℚ → ℚ) (b1 b2 : Ball) : Ball × Ball :=
  if b1.isDead || b2.isDead then (b1, b2)
  else
    let dist := Vec2.dist sq b1.pos b2.pos
    let minDist := b1.r + b2.r + 1
    if dist ≤ minDist then
      if 0 < relSpeed sq b1 b2 then (b1, b2)
      else
        let impulseScalar := -(1 + BALL_BOUNCE) * relSpeed sq b1 b2 / 2
        let impulse := Vec2.mult (collNormal sq b1 b2) impulseScalar
        ({ b1 with vel := Vec2.add b1.vel impulse },
          { b2 with vel := Vec2.sub b2.vel impulse })
    else (b1, b2)

/-- Dynamic resolution of the pair at indices `i < j`. -/
def dynamicPair (sq : ℚ → ℚ) (bs : List Ball) (i j : Nat) : List Ball :=
  let b1 := getB bs i
  let b2 := getB bs j
  let r := resolveDynamic sq b1 b2
  (bs.set i r.1).set j r.2

/-- The list `[0, 1, ..., n-1]` in ascending order. -/
def upto : Nat → List Nat
  | 0 => []
  | n + 1 => upto n ++ [n]

/-- One double loop `for i; for j = i+1 ...` applying `f` to each pair. -/
def pairPass (f : List Ball → Nat → Nat → List Ball) (bs : List Ball) : List Ball :=
  (upto bs.length).foldl
    (fun acc i =>
      (upto bs.length).foldl
        (fun acc2 j => if i < j then f acc2 i j else acc2) acc)
    bs

/-- `checkBallCollisions`: two static passes, then the dynamic pass. -/
def checkBallCollisions (sq : ℚ → ℚ) (bs : List Ball) : List Ball :=
  pairPass (dynamicPair sq) (pairPass (staticPair sq) (pairPass (staticPair sq) bs))

/-- Count of living balls of a player (`balls.filter(...).length`). -/
def countAlive (p : Int) (bs : List Ball) : Int :=
  ((bs.filter (fun b => b.player == p && !b.isDead)).length : Int)

/-- `updateScores`: recompute both scores from the ball list; finish the game
when a side has no living balls (win event only on the `p2 == 0` branch). -/
def updateScores (s : GameState) : GameState × List GameEvent :=
  let p1 := countAlive 1 s.balls
  let p2 := countAlive 2 s.balls
  if p1 = 0 then
    ({ s with scores := ⟨p1, p2⟩, status := Status.finished, winner := some 2 }, [])
  else if p2 = 0 then
    ({ s with scores := ⟨p1, p2⟩, status := Status.finished, winner := some 1 },
      [GameEvent.win])
  else ({ s with scores := ⟨p1, p2⟩ }, [])

/-- `GameEngine.update`: per-ball phase, ball-ball collisions, score update. -/
def update (e : GameEngine) (sq : ℚ → ℚ) (s : GameState) :
    GameState × List GameEvent :=
  let pr := updateBalls e sq s.balls
  let bs2 := checkBallCollisions sq pr.1
  let sr := updateScores { s with balls := bs2 }
  (sr.1, pr.2 ++ sr.2)

/-- Iterated ticks. -/
def stepN (e : GameEngine) (sq : ℚ → ℚ) : Nat → GameState → GameState
  | 0, s => s
  | n + 1, s => stepN e sq n (update e sq s).1

/-- Set the velocity of the first ball with the given id. -/
def setFirstVel : List Ball → Int → Vec2 → List Ball
  | [], _, _ => []
  | b :: bs, i, v =>
    if b.id = i then { b with vel := v } :: bs else b :: setFirstVel bs i v

/-- `shoot` from `usePhysics`: no-op while a simulation is in flight or when
no ball has the requested id; otherwise installs the velocity on the first
ball with that id. -/
def shoot (isSimulating : Bool) (s : GameState) (ballId : Int) (v : Vec2) :
    GameState :=
  if isSimulating then s
  else
    match s.balls.find? (fun b => b.id == ballId) with
    | none => s
    | some _ => { s with balls := setFirstVel s.balls ballId v }

/-! Concrete engine and states used to evaluate the model on closed inputs. -/

/-- Engine built from an 850×650 viewport: bounds 800×560 centered at
(425, 325), arena x ∈ [25, 825], y ∈ [45, 605]. -/
def eW : GameEngine := mkEngine 850 650

/-- Living ball just inside the left arena edge. -/
def ballA : Ball := ⟨0, 1, ⟨251 / 10, 50⟩, ⟨0, 0⟩, 10, false, 1, 0, 0⟩

/-- Living ball overlapping `ballA` from the right. -/
def ballB : Ball := ⟨1, 2, ⟨261 / 10, 50⟩, ⟨0, 0⟩, 10, false, 1, 0, 0⟩

/-- State with two overlapping living balls near the left edge. -/
def S5 : GameState := ⟨[ballA, ballB], [], 1, ⟨7, 7⟩, Status.playing, none⟩

/-- `ballA` after one tick: pushed across the left edge, still alive. -/
def ballA2 : Ball := ⟨0, 1, ⟨1541 / 100, 50⟩, ⟨0, 0⟩, 10, false, 1, 0, 0⟩

/-- `ballB` after one tick. -/
def ballB2 : Ball := ⟨1, 2, ⟨3579 / 100, 50⟩, ⟨0, 0⟩, 10, false, 1, 0, 0⟩

/-- Dead ball of player 1. -/
def dA : Ball := ⟨0, 1, ⟨100, 100⟩, ⟨0, 0⟩, 10, true, 1, 0, 0⟩

/-- Dead ball of player 2. -/
def dB : Ball := ⟨1, 2, ⟨200, 100⟩, ⟨0, 0⟩, 10, true, 1, 0, 0⟩

/-- State in which every ball is dead. -/
def S0 : GameState := ⟨[dA, dB], [], 1, ⟨7, 7⟩, Status.playing, none⟩

/-- `dA` after one tick of scale decay. -/
def dA9 : Ball := ⟨0, 1, ⟨100, 100⟩, ⟨0, 0⟩, 10, true, 9 / 10, 0, 0⟩

/-- `dB` after one tick of scale decay. -/
def dB9 : Ball := ⟨1, 2, ⟨200, 100⟩, ⟨0, 0⟩, 10, true, 9 / 10, 0, 0⟩

/-- Living player-1 ball at the arena center of `eW`. -/
def cA : Ball := ⟨0, 1, ⟨425, 325⟩, ⟨0, 0⟩, 10, false, 1, 0, 0⟩

/-- State with one living player-1 ball and one dead player-2 ball. -/
def S81 : GameState := ⟨[cA, dB], [], 1, ⟨7, 7⟩, Status.playing, none⟩

/-- Dead ball with id 5. -/
def d5 : Ball := ⟨5, 1, ⟨0, 0⟩, ⟨0, 0⟩, 10, true, 1, 0, 0⟩

/-- State whose only ball (id 5) is dead. -/
def S7 : GameState := ⟨[d5], [], 1, ⟨7, 7⟩, Status.playing, none⟩

/-- A copy of `S5` (used to state determinism over identical copies). -/
def S5copy : GameState := ⟨[ballA, ballB], [], 1, ⟨7, 7⟩, Status.playing, none⟩

/-- Living ball moving left, overlapping `wTest`. -/
def wb1 : Ball := ⟨0, 1, ⟨12, 5⟩, ⟨-1, 0⟩, 3, false, 1, 0, 0⟩

/-- As `wb1` but moving away from the wall. -/
def wb2 : Ball := ⟨0, 1, ⟨12, 5⟩, ⟨1, 0⟩, 3, false, 1, 0, 0⟩

/-- Living ball far from `wTest`. -/
def wb3 : Ball := ⟨0, 1, ⟨100, 5⟩, ⟨-1, 0⟩, 3, false, 1, 0, 0⟩

/-- Ball whose center lies strictly inside `wTest`. -/
def wb4 : Ball := ⟨0, 1, ⟨5, 5⟩, ⟨2, 3⟩, 3, false, 1, 0, 0⟩

/-- Wall rectangle [0,10] × [0,10]. -/
def wTest : Wall := ⟨⟨5, 5⟩, 10, 10, WallType.horizontal⟩

/-- Ball moving right toward `cb2`. -/
def cb1 : Ball := ⟨0, 1, ⟨0, 0⟩, ⟨1, 0⟩, 3, false, 1, 0, 0⟩

/-- Ball moving left toward `cb1`. -/
def cb2 : Ball := ⟨1, 2, ⟨5, 0⟩, ⟨-1, 0⟩, 3, false, 1, 0, 0⟩

/-- As `cb1` but moving away. -/
def cb1s : Ball := ⟨0, 1, ⟨0, 0⟩, ⟨-1, 0⟩, 3, false, 1, 0, 0⟩

/-- As `cb2` but moving away. -/
def cb2s : Ball := ⟨1, 2, ⟨5, 0⟩, ⟨1, 0⟩, 3, false, 1, 0, 0⟩

/-- As `cb1` but dead. -/
def cb1d : Ball := ⟨0, 1, ⟨0, 0⟩, ⟨1, 0⟩, 3, true, 1, 0, 0⟩

end Zoo

namespace Zoo

lemma updateScores_balls (s : GameState) : (updateScores s).1.balls = s.balls := by
  simp only [updateScores]
  split
  · rfl
  · split <;> rfl

lemma updateScores_scores (s : GameState) :
    (updateScores s).1.scores = ⟨countAlive 1 s.balls, countAlive 2 s.balls⟩ := by
  simp only [updateScores]
  split
  · rfl
  · split <;> rfl

lemma update_balls (e : GameEngine) (sq : ℚ → ℚ) (s : GameState) :
    (update e sq s).1.balls = checkBallCollisions sq (updateBalls e sq s.balls).1 := by
  unfold update
  rw [updateScores_balls]

lemma countAlive_eq (p : Int) (bs : List Ball) :
    countAlive p bs =
      ((bs.filter (fun b => decide (b.player = p ∧ b.isDead = false))).length : Int) := by
  unfold countAlive
  have hf : bs.filter (fun b => b.player == p && !b.isDead) =
      bs.filter (fun b => decide (b.player = p ∧ b.isDead = false)) := by
    apply List.filter_congr
    intro b _
    cases hb : b.isDead <;> by_cases hp : b.player = p <;> simp [hb, hp]
  rw [hf]

/-- C1: score invariant — in every state returned by `update`, `scores.p1`
equals the number of balls with `player = 1` and `isDead = false` and
`scores.p2` the same count for player 2, recomputed from the returned ball
list regardless of the input state's scores. -/
theorem score_invariant (e : GameEngine) (sq : ℚ → ℚ) (s : GameState) :
    (update e sq s).1.scores.p1 =
      (((update e sq s).1.balls.filter
        (fun b => decide (b.player = 1 ∧ b.isDead = false))).length : Int) ∧
    (update e sq s).1.scores.p2 =
      (((update e sq s).1.balls.filter
        (fun b => decide (b.player = 2 ∧ b.isDead = false))).length : Int) := by
  have hb := update_balls e sq s
  have hs : (update e sq s).1.scores =
      ⟨countAlive 1 (checkBallCollisions sq (updateBalls e sq s.balls).1),
       countAlive 2 (checkBallCollisions sq (updateBalls e sq s.balls).1)⟩ := by
    unfold update
    rw [updateScores_scores]
  rw [hb, hs, countAlive_eq, countAlive_eq]
  exact ⟨rfl, rfl⟩

/-- C2: determinism — `update` is a deterministic function of its input
state: two states that agree on every field produce identical output states
and event lists, and iterating `update` (also after installing the same shot
velocity on the same ball with `shoot`) from identical states yields
identical results. -/
theorem update_deterministic (e : GameEngine) (sq : ℚ → ℚ) (n : Nat)
    (s t : GameState) (ballId : Int) (v : Vec2)
    (h1 : s.balls = t.balls) (h2 : s.walls = t.walls) (h3 : s.turn = t.turn)
    (h4 : s.scores = t.scores) (h5 : s.status = t.status) (h6 : s.winner = t.winner) :
    update e sq s = update e sq t ∧
    stepN e sq n s = stepN e sq n t ∧
    stepN e sq n (shoot false s ballId v) = stepN e sq n (shoot false t ballId v) := by
  have : s = t := by
    cases s
    cases t
    simp_all
  subst this
  exact ⟨rfl, rfl, rfl⟩

lemma checkWallCollision_no_win (sq : ℚ → ℚ) (b : Ball) (w : Wall) :
    GameEvent.win ∉ (checkWallCollision sq b w).2 := by
  simp only [checkWallCollision]
  split
  · split <;> simp
  · simp

lemma wallFold_no_win (sq : ℚ → ℚ) (ws : List Wall) (acc : Ball × List GameEvent)
    (h : GameEvent.win ∉ acc.2) :
    GameEvent.win ∉
      (ws.foldl (fun (acc : Ball × List GameEvent) w =>
        let r := checkWallCollision sq acc.1 w
        (r.1, acc.2 ++ r.2)) acc).2 := by
  induction ws generalizing acc with
  | nil => exact h
  | cons w ws ih =>
    apply ih
    simp only [List.mem_append]
    rintro (hl | hr)
    · exact h hl
    · exact checkWallCollision_no_win sq acc.1 w hr

lemma ballWalls_no_win (e : GameEngine) (sq : ℚ → ℚ) (b : Ball) :
    GameEvent.win ∉ (ballWalls e sq b).2 := by
  unfold ballWalls
  exact wallFold_no_win sq e.walls (b, []) (by simp)

lemma boundsCheck_no_win (e : GameEngine) (br : Ball × List GameEvent)
    (h : GameEvent.win ∉ br.2) : GameEvent.win ∉ (boundsCheck e br).2 := by
  unfold boundsCheck
  split_ifs
  · exact h
  · simp only [List.mem_append]
    rintro (hl | hr)
    · exact h hl
    · simp at hr
  · exact h

lemma ballPhase_no_win (e : GameEngine) (sq : ℚ → ℚ) (b : Ball) :
    GameEvent.win ∉ (ballPhase e sq b).2 := by
  unfold ballPhase
  split
  · simp
  · exact boundsCheck_no_win e _ (ballWalls_no_win e sq _)

lemma updateBalls_no_win (e : GameEngine) (sq : ℚ → ℚ) (bs : List Ball) :
    GameEvent.win ∉ (updateBalls e sq bs).2 := by
  induction bs with
  | nil => simp [updateBalls]
  | cons b bs ih =>
    simp only [updateBalls, List.mem_append]
    rintro (hl | hr)
    · exact ballPhase_no_win e sq b hl
    · exact ih hr

lemma updateScores_win_cases (s : GameState) :
    (countAlive 1 s.balls = 0 →
      (updateScores s).1.status = Status.finished ∧ (updateScores s).1.winner = some 2 ∧
      (updateScores s).2 = []) ∧
    (countAlive 1 s.balls ≠ 0 → countAlive 2 s.balls = 0 →
      (updateScores s).1.status = Status.finished ∧ (updateScores s).1.winner = some 1 ∧
      (updateScores s).2 = [GameEvent.win]) ∧
    (countAlive 1 s.balls ≠ 0 → countAlive 2 s.balls ≠ 0 →
      (updateScores s).1.status = s.status ∧ (updateScores s).1.winner = s.winner ∧
      (updateScores s).2 = []) := by
  refine ⟨fun h1 => by simp [updateScores, h1],
    fun h1 h2 => by simp [updateScores, h1, h2],
    fun h1 h2 => by simp [updateScores, h1, h2]⟩

lemma update_scores_eq (e : GameEngine) (sq : ℚ → ℚ) (s : GameState) :
    (update e sq s).1.scores =
      ⟨countAlive 1 (checkBallCollisions sq (updateBalls e sq s.balls).1),
       countAlive 2 (checkBallCollisions sq (updateBalls e sq s.balls).1)⟩ := by
  unfold update
  rw [updateScores_scores]

/-- C8 (amended): in the state returned by `update`, if the recomputed `p1`
is zero then status is finished and the winner is player 2 (this branch is
tested first, so it also applies when `p2` is zero as well); if `p1` is
nonzero and `p2` is zero then status is finished and the winner is player 1;
a `win` event is emitted exactly when `p1` is nonzero and `p2` is zero. -/
theorem victory_rule (e : GameEngine) (sq : ℚ → ℚ) (s : GameState) :
    ((update e sq s).1.scores.p1 = 0 →
      (update e sq s).1.status = Status.finished ∧ (update e sq s).1.winner = some 2) ∧
    ((update e sq s).1.scores.p1 ≠ 0 → (update e sq s).1.scores.p2 = 0 →
      (update e sq s).1.status = Status.finished ∧ (update e sq s).1.winner = some 1) ∧
    (GameEvent.win ∈ (update e sq s).2 ↔
      (update e sq s).1.scores.p1 ≠ 0 ∧ (update e sq s).1.scores.p2 = 0) := by
  have hsc := update_scores_eq e sq s
  have h1eq : (update e sq s).1 =
      (updateScores { s with balls := checkBallCollisions sq (updateBalls e sq s.balls).1 }).1 := rfl
  have h2eq : (update e sq s).2 = (updateBalls e sq s.balls).2 ++
      (updateScores { s with balls := checkBallCollisions sq (updateBalls e sq s.balls).1 }).2 := rfl
  obtain ⟨w1, w2, w3⟩ := updateScores_win_cases
    { s with balls := checkBallCollisions sq (updateBalls e sq s.balls).1 }
  have hnw := updateBalls_no_win e sq s.balls
  refine ⟨?_, ?_, ?_⟩
  · intro hp1
    rw [hsc] at hp1
    rcases w1 hp1 with ⟨ha, hb, _⟩
    exact ⟨by rw [h1eq]; exact ha, by rw [h1eq]; exact hb⟩
  · intro hp1 hp2
    rw [hsc] at hp1 hp2
    rcases w2 hp1 hp2 with ⟨ha, hb, _⟩
    exact ⟨by rw [h1eq]; exact ha, by rw [h1eq]; exact hb⟩
  · rw [h2eq, hsc]
    simp only [List.mem_append]
    constructor
    · rintro (h | h)
      · exact absurd h hnw
      · by_cases hc1 : countAlive 1 (checkBallCollisions sq (updateBalls e sq s.balls).1) = 0
        · rcases w1 hc1 with ⟨_, _, he⟩
          rw [he] at h
          simp at h
        · by_cases hc2 : countAlive 2 (checkBallCollisions sq (updateBalls e sq s.balls).1) = 0
          · exact ⟨hc1, hc2⟩
          · rcases w3 hc1 hc2 with ⟨_, _, he⟩
            rw [he] at h
            simp at h
    · rintro ⟨hp1, hp2⟩
      rcases w2 hp1 hp2 with ⟨_, _, he⟩
      rw [he]
      simp

/-- C10: simultaneous double elimination — when both recomputed scores are
zero, `update` sets status to finished with winner 2 (the `p1 = 0` branch is
tested first) and emits no `win` event. -/
theorem double_elim (e : GameEngine) (sq : ℚ → ℚ) (s : GameState)
    (h1 : (update e sq s).1.scores.p1 = 0) (_h2 : (update e sq s).1.scores.p2 = 0) :
    (update e sq s).1.status = Status.finished ∧ (update e sq s).1.winner = some 2 ∧
    GameEvent.win ∉ (update e sq s).2 := by
  have hsc := update_scores_eq e sq s
  have h1eq : (update e sq s).1 =
      (updateScores { s with balls := checkBallCollisions sq (updateBalls e sq s.balls).1 }).1 := rfl
  have h2eq : (update e sq s).2 = (updateBalls e sq s.balls).2 ++
      (updateScores { s with balls := checkBallCollisions sq (updateBalls e sq s.balls).1 }).2 := rfl
  rw [hsc] at h1
  obtain ⟨w1, _, _⟩ := updateScores_win_cases
    { s with balls := checkBallCollisions sq (updateBalls e sq s.balls).1 }
  rcases w1 h1 with ⟨ha, hb, he⟩
  refine ⟨by rw [h1eq]; exact ha, by rw [h1eq]; exact hb, ?_⟩
  rw [h2eq, he]
  simp only [List.append_nil, List.mem_append]
  exact updateBalls_no_win e sq s.balls

lemma boundsCheck_contain (e : GameEngine) (br : Ball × List GameEvent)
    (h : (boundsCheck e br).1.isDead = false) : ¬ outOfBounds e (boundsCheck e br).1 := by
  unfold boundsCheck at h ⊢
  split_ifs at h ⊢ with h1 h2 <;> simp_all

/-- C5 (amended): after the per-ball phase of a tick (integration, wall
collisions, bounds check) no living ball's center lies outside the arena
rectangle — every ball whose center crossed outside was marked dead in that
phase. (The full `update` does not satisfy containment: the later ball-ball
positional correction can move a living center outside, see the
counterexample.) -/
theorem containment_phase (e : GameEngine) (sq : ℚ → ℚ) (b : Ball)
    (h : (ballPhase e sq b).1.isDead = false) :
    e.bounds.cx - e.bounds.rx ≤ (ballPhase e sq b).1.pos.x ∧
    (ballPhase e sq b).1.pos.x ≤ e.bounds.cx + e.bounds.rx ∧
    e.bounds.cy - e.bounds.ry ≤ (ballPhase e sq b).1.pos.y ∧
    (ballPhase e sq b).1.pos.y ≤ e.bounds.cy + e.bounds.ry := by
  unfold ballPhase at h ⊢
  cases hd : b.isDead
  · simp only [hd] at h ⊢
    have hnb := boundsCheck_contain e (ballWalls e sq (integrateBall sq b)) (by simpa using h)
    unfold outOfBounds at hnb
    push_neg at hnb
    simpa using hnb
  · rw [hd] at h
    simp at h

lemma foldl_pres {α β : Type} (P : β → Prop) (g : β → α → β)
    (hg : ∀ acc x, P acc → P (g acc x)) :
    ∀ (l : List α) (acc : β), P acc → P (l.foldl g acc) := by
  intro l
  induction l with
  | nil => exact fun acc h => h
  | cons x xs ih => exact fun acc h => ih (g acc x) (hg acc x h)

lemma getB_of_get? : ∀ {l : List Ball} {i : Nat} {b : Ball},
    l.get? i = some b → getB l i = b := by
  intro l
  induction l with
  | nil => intro i b h; simp at h
  | cons x xs ih =>
    intro i b h
    cases i with
    | zero => simp at h; simpa [getB, List.getD] using h
    | succ k => simpa [getB, List.getD] using ih (by simpa using h)

lemma set_of_get? : ∀ {l : List Ball} {i : Nat} {b : Ball},
    l.get? i = some b → l.set i b = l := by
  intro l
  induction l with
  | nil => intro i b h; simp at h
  | cons x xs ih =>
    intro i b h
    cases i with
    | zero => simp at h; simp [h]
    | succ k => simp [ih (by simpa using h)]

lemma get?_set_ne : ∀ (l : List Ball) {i j : Nat}, i ≠ j → ∀ (x : Ball),
    (l.set i x).get? j = l.get? j := by
  intro l
  induction l with
  | nil => intro i j _ x; simp
  | cons a as ih =>
    intro i j hij x
    cases i with
    | zero =>
      cases j with
      | zero => exact absurd rfl hij
      | succ k => simp
    | succ m =>
      cases j with
      | zero => simp
      | succ k => simpa using ih (fun he => hij (by rw [he])) x

lemma set_getB_self : ∀ (l : List Ball) (i : Nat), l.set i (getB l i) = l := by
  intro l
  induction l with
  | nil => intro i; simp
  | cons a as ih =>
    intro i
    cases i with
    | zero => simp [getB, List.getD]
    | succ k =>
      simp only [getB, List.getD] at ih ⊢
      simpa using ih k

lemma resolveDynamic_dead (sq : ℚ → ℚ) (b1 b2 : Ball)
    (h : b1.isDead = true ∨ b2.isDead = true) : resolveDynamic sq b1 b2 = (b1, b2) := by
  rcases h with h | h <;> simp [resolveDynamic, h]

lemma staticPair_dead_pres {sq : ℚ → ℚ} {bs : List Ball} {i j m : Nat} {b : Ball}
    (hb : b.isDead = true) (hm : bs.get? m = some b) :
    (staticPair sq bs i j).get? m = some b := by
  rcases eq_or_ne i m with rfl | hi
  · have hg : getB bs i = b := getB_of_get? hm
    have hstat : staticPair sq bs i j = bs := by simp [staticPair, hg, hb]
    rw [hstat]
    exact hm
  · rcases eq_or_ne j m with rfl | hj
    · have hg : getB bs j = b := getB_of_get? hm
      have hstat : staticPair sq bs i j = bs := by simp [staticPair, hg, hb]
      rw [hstat]
      exact hm
    · simp only [staticPair]
      split_ifs
      · exact hm
      · rw [get?_set_ne _ hj, get?_set_ne _ hi]
        exact hm
      · exact hm

lemma dynamicPair_dead_pres {sq : ℚ → ℚ} {bs : List Ball} {i j m : Nat} {b : Ball}
    (hb : b.isDead = true) (hm : bs.get? m = some b) :
    (dynamicPair sq bs i j).get? m = some b := by
  rcases eq_or_ne i m with rfl | hi
  · have hg : getB bs i = b := getB_of_get? hm
    have hr : resolveDynamic sq (getB bs i) (getB bs j) = (getB bs i, getB bs j) := by
      rw [hg]
      exact resolveDynamic_dead sq _ _ (Or.inl hb)
    simp only [dynamicPair, hr, set_getB_self]
    exact hm
  · rcases eq_or_ne j m with rfl | hj
    · have hg : getB bs j = b := getB_of_get? hm
      have hr : resolveDynamic sq (getB bs i) (getB bs j) = (getB bs i, getB bs j) := by
        rw [hg]
        exact resolveDynamic_dead sq _ _ (Or.inr hb)
      simp only [dynamicPair, hr, set_getB_self]
      exact hm
    · simp only [dynamicPair]
      rw [get?_set_ne _ hj, get?_set_ne _ hi]
      exact hm

lemma pairPass_pres {m : Nat} {b : Ball} (f : List Ball → Nat → Nat → List Ball)
    (hf : ∀ bs i j, bs.get? m = some b → (f bs i j).get? m = some b)
    (bs : List Ball) (h : bs.get? m = some b) : (pairPass f bs).get? m = some b := by
  unfold pairPass
  refine foldl_pres (fun l : List Ball => l.get? m = some b) _ ?_ _ _ h
  intro acc i hacc
  refine foldl_pres (fun l : List Ball => l.get? m = some b) _ ?_ _ _ hacc
  intro acc2 j hacc2
  by_cases hij : i < j
  · rw [if_pos hij]
    exact hf _ _ _ hacc2
  · rw [if_neg hij]
    exact hacc2

lemma checkBallCollisions_dead_pres {sq : ℚ → ℚ} {bs : List Ball} {m : Nat} {b : Ball}
    (hb : b.isDead = true) (hm : bs.get? m = some b) :
    (checkBallCollisions sq bs).get? m = some b := by
  unfold checkBallCollisions
  apply pairPass_pres _ (fun bs i j h => dynamicPair_dead_pres hb h)
  apply pairPass_pres _ (fun bs i j h => staticPair_dead_pres hb h)
  apply pairPass_pres _ (fun bs i j h => staticPair_dead_pres hb h)
  exact hm

lemma updateBalls_fst (e : GameEngine) (sq : ℚ → ℚ) (bs : List Ball) :
    (updateBalls e sq bs).1 = bs.map (fun b => (ballPhase e sq b).1) := by
  induction bs with
  | nil => simp [updateBalls]
  | cons b bs ih => simp [updateBalls, ih]

lemma ballPhase_dead (e : GameEngine) (sq : ℚ → ℚ) (b : Ball) (hb : b.isDead = true) :
    ballPhase e sq b =
      ({ b with scale := if 0 < b.scale then b.scale - 1 / 10 else b.scale }, []) := by
  simp [ballPhase, hb]

/-- C6: monotonic death — a ball that is dead in the input of `update` is
dead in the output; the only changed field is `scale`, decremented by 0.1
while positive and left unchanged once non-positive, hence non-increasing;
position and velocity are untouched. -/
theorem dead_stays_dead (e : GameEngine) (sq : ℚ → ℚ) (s : GameState) (i : Nat) (b : Ball)
    (hi : s.balls.get? i = some b) (hb : b.isDead = true) :
    (update e sq s).1.balls.get? i =
      some { b with scale := if 0 < b.scale then b.scale - 1 / 10 else b.scale } ∧
    (getB (update e sq s).1.balls i).isDead = true ∧
    (getB (update e sq s).1.balls i).pos = b.pos ∧
    (getB (update e sq s).1.balls i).vel = b.vel ∧
    (getB (update e sq s).1.balls i).scale ≤ b.scale := by
  have h1 : (updateBalls e sq s.balls).1.get? i =
      some { b with scale := if 0 < b.scale then b.scale - 1 / 10 else b.scale } := by
    rw [updateBalls_fst, List.get?_map, hi]
    simp [ballPhase_dead e sq b hb]
  have h2 : (update e sq s).1.balls.get? i =
      some { b with scale := if 0 < b.scale then b.scale - 1 / 10 else b.scale } := by
    rw [update_balls]
    exact checkBallCollisions_dead_pres (by simpa using hb) h1
  have h3 := getB_of_get? h2
  rw [h3]
  refine ⟨h2, hb, rfl, rfl, ?_⟩
  simp only
  split_ifs with hs
  · linarith
  · exact le_refl _

lemma norm_dot_self (sq : ℚ → ℚ) (v : Vec2)
    (h : sq (Vec2.dot v v) * sq (Vec2.dot v v) = Vec2.dot v v)
    (hm : Vec2.mag sq v ≠ 0) :
    Vec2.dot (Vec2.norm sq v) (Vec2.norm sq v) = 1 := by
  have hmag : Vec2.mag sq v = sq (Vec2.dot v v) := rfl
  have hdd : Vec2.dot v v = v.x * v.x + v.y * v.y := rfl
  have hn : Vec2.norm sq v = Vec2.mult v (1 / Vec2.mag sq v) := by
    simp only [Vec2.norm]
    rw [if_neg hm]
  rw [hn]
  show v.x * (1 / Vec2.mag sq v) * (v.x * (1 / Vec2.mag sq v)) +
    v.y * (1 / Vec2.mag sq v) * (v.y * (1 / Vec2.mag sq v)) = 1
  rw [hmag] at hm ⊢
  field_simp
  linear_combination -h - hdd

lemma dot_impulse (u1 u2 n : Vec2) (c : ℚ) :
    Vec2.dot (Vec2.sub (Vec2.add u1 (Vec2.mult n c)) (Vec2.sub u2 (Vec2.mult n c))) n =
      Vec2.dot (Vec2.sub u1 u2) n + 2 * c * Vec2.dot n n := by
  simp only [Vec2.dot, Vec2.sub, Vec2.add, Vec2.mult]
  ring

/-- C3: ball-ball impulse — for a pair of living balls within the sum of
radii plus 1 whose relative speed along the collision normal is not
positive, the dynamic resolution adds the impulse of scalar
`(1 + 0.85) * |speed| / 2` along the normal to one ball and subtracts the
same impulse from the other; when the square root of the squared distance is
exact, the post-collision relative speed along the normal equals 0.85 times
the pre-collision speed in magnitude and does not exceed it. Separating
pairs and pairs containing a dead ball are left unchanged. -/
theorem ball_ball_impulse (sq : ℚ → ℚ) (b1 b2 : Ball) :
    (b1.isDead = false → b2.isDead = false →
      Vec2.dist sq b1.pos b2.pos ≤ b1.r + b2.r + 1 →
      ¬ 0 < relSpeed sq b1 b2 →
      (resolveDynamic sq b1 b2).1.vel =
        Vec2.add b1.vel (Vec2.mult (collNormal sq b1 b2)
          ((1 + BALL_BOUNCE) * |relSpeed sq b1 b2| / 2)) ∧
      (resolveDynamic sq b1 b2).2.vel =
        Vec2.sub b2.vel (Vec2.mult (collNormal sq b1 b2)
          ((1 + BALL_BOUNCE) * |relSpeed sq b1 b2| / 2)) ∧
      (sq (Vec2.dot (Vec2.sub b1.pos b2.pos) (Vec2.sub b1.pos b2.pos)) *
          sq (Vec2.dot (Vec2.sub b1.pos b2.pos) (Vec2.sub b1.pos b2.pos)) =
          Vec2.dot (Vec2.sub b1.pos b2.pos) (Vec2.sub b1.pos b2.pos) →
        Vec2.dot (Vec2.sub (resolveDynamic sq b1 b2).1.vel (resolveDynamic sq b1 b2).2.vel)
            (collNormal sq b1 b2) = -(BALL_BOUNCE * relSpeed sq b1 b2) ∧
        |Vec2.dot (Vec2.sub (resolveDynamic sq b1 b2).1.vel (resolveDynamic sq b1 b2).2.vel)
            (collNormal sq b1 b2)| ≤ |relSpeed sq b1 b2|)) ∧
    (0 < relSpeed sq b1 b2 → resolveDynamic sq b1 b2 = (b1, b2)) ∧
    (b1.isDead = true ∨ b2.isDead = true → resolveDynamic sq b1 b2 = (b1, b2)) := by
  refine ⟨?_, ?_, fun h => resolveDynamic_dead sq b1 b2 h⟩
  · intro h1 h2 hdist hspeed
    have habs : |relSpeed sq b1 b2| = -relSpeed sq b1 b2 :=
      abs_of_nonpos (le_of_not_lt hspeed)
    have hc : (1 + BALL_BOUNCE) * |relSpeed sq b1 b2| / 2 =
        -(1 + BALL_BOUNCE) * relSpeed sq b1 b2 / 2 := by
      rw [habs]
      ring
    have hres : resolveDynamic sq b1 b2 =
        ({ b1 with vel := Vec2.add b1.vel (Vec2.mult (collNormal sq b1 b2)
            (-(1 + BALL_BOUNCE) * relSpeed sq b1 b2 / 2)) },
         { b2 with vel := Vec2.sub b2.vel (Vec2.mult (collNormal sq b1 b2)
            (-(1 + BALL_BOUNCE) * relSpeed sq b1 b2 / 2)) }) := by
      simp [resolveDynamic, h1, h2, hdist, hspeed]
    refine ⟨by rw [hres, hc], by rw [hres, hc], ?_⟩
    intro hsq
    have hpost : Vec2.dot (Vec2.sub (resolveDynamic sq b1 b2).1.vel
        (resolveDynamic sq b1 b2).2.vel) (collNormal sq b1 b2) =
        relSpeed sq b1 b2 + 2 * (-(1 + BALL_BOUNCE) * relSpeed sq b1 b2 / 2) *
          Vec2.dot (collNormal sq b1 b2) (collNormal sq b1 b2) := by
      rw [hres]
      exact dot_impulse b1.vel b2.vel (collNormal sq b1 b2) _
    by_cases hm : Vec2.mag sq (Vec2.sub b1.pos b2.pos) = 0
    · have hn : collNormal sq b1 b2 = ⟨0, 0⟩ := by
        simp [collNormal, Vec2.norm, hm]
      have hs0 : relSpeed sq b1 b2 = 0 := by
        simp [relSpeed, hn, Vec2.dot]
      rw [hpost, hs0, hn]
      simp [Vec2.dot]
    · have hnn : Vec2.dot (collNormal sq b1 b2) (collNormal sq b1 b2) = 1 :=
        norm_dot_self sq (Vec2.sub b1.pos b2.pos) hsq hm
      have hval : Vec2.dot (Vec2.sub (resolveDynamic sq b1 b2).1.vel
          (resolveDynamic sq b1 b2).2.vel) (collNormal sq b1 b2) =
          -(BALL_BOUNCE * relSpeed sq b1 b2) := by
        rw [hpost, hnn]
        unfold BALL_BOUNCE
        ring
      refine ⟨hval, ?_⟩
      rw [hval, habs]
      rw [abs_neg, abs_mul]
      have hbb : |BALL_BOUNCE| = 17 / 20 := by norm_num [BALL_BOUNCE]
      rw [hbb]
      have := abs_nonneg (relSpeed sq b1 b2)
      rw [abs_of_nonpos (le_of_not_lt hspeed)]
      linarith
  · intro hsp
    simp [resolveDynamic, hsp]

/-- C4: wall bounce — when a ball overlaps a wall rectangle (computed
distance at most the radius), the velocity response fires only if the
velocity points into the chosen axis-aligned normal (negative dot product);
when it fires the new velocity is the reflection about that normal scaled as
a whole by 0.7 and exactly one `wall` event is emitted; when it does not
fire the velocity is unchanged and no event is emitted; with no overlap the
ball and event list are unchanged. -/
theorem wall_bounce (sq : ℚ → ℚ) (b : Ball) (w : Wall) :
    (wallDistance sq b w ≤ b.r →
      (Vec2.dot b.vel (wallNormal b w) < 0 →
        (checkWallCollision sq b w).1.vel =
          Vec2.mult (Vec2.sub b.vel (Vec2.mult (wallNormal b w)
            (2 * Vec2.dot b.vel (wallNormal b w)))) WALL_BOUNCE ∧
        (checkWallCollision sq b w).2 = [GameEvent.wall]) ∧
      (¬ Vec2.dot b.vel (wallNormal b w) < 0 →
        (checkWallCollision sq b w).1.vel = b.vel ∧
        (checkWallCollision sq b w).2 = [])) ∧
    (¬ wallDistance sq b w ≤ b.r →
      checkWallCollision sq b w = (b, [])) := by
  refine ⟨fun hd => ⟨fun hv => ?_, fun hv => ?_⟩, fun hd => ?_⟩
  · constructor <;> simp [checkWallCollision, hd, hv]
  · constructor <;> simp [checkWallCollision, hd, hv]
  · simp [checkWallCollision, hd]

/-- C9: degenerate geometry — `Vec2.norm` maps the zero vector to the zero
vector (no division-by-zero fault), and in wall resolution a ball whose
center coincides with the closest rectangle point (distance exactly zero)
is pushed in the default direction `(1, 0)` by one radius, with no velocity
response and no event. -/
theorem degenerate_geometry (sq : ℚ → ℚ) (b : Ball) (w : Wall)
    (hsq0 : sq 0 = 0) (hx : wallTestX b w = b.pos.x) (hy : wallTestY b w = b.pos.y)
    (hr : 0 ≤ b.r) :
    Vec2.norm sq ⟨0, 0⟩ = (⟨0, 0⟩ : Vec2) ∧
    (checkWallCollision sq b w).1.pos = ⟨b.pos.x + b.r, b.pos.y⟩ ∧
    (checkWallCollision sq b w).1.vel = b.vel ∧
    (checkWallCollision sq b w).2 = [] := by
  have hdx : wallDistX b w = 0 := by simp [wallDistX, hx]
  have hdy : wallDistY b w = 0 := by simp [wallDistY, hy]
  have hdist : wallDistance sq b w = 0 := by
    simp [wallDistance, hdx, hdy, hsq0]
  have hn : wallNormal b w = ⟨0, 0⟩ := by
    simp [wallNormal, hdx, hdy, mathSign]
  refine ⟨by simp [Vec2.norm, Vec2.mag, hsq0], ?_, ?_, ?_⟩ <;>
    simp [checkWallCollision, hdist, hdx, hdy, hr, hn, Vec2.dot]

lemma setFirstVel_spec (ballId : Int) (v : Vec2) :
    ∀ (l : List Ball) (i : Nat) (b : Ball),
    l.get? i = some b → b.id = ballId →
    (∀ k bk, k < i → l.get? k = some bk → bk.id ≠ ballId) →
    (setFirstVel l ballId v).get? i = some { b with vel := v } ∧
    (∀ k, k ≠ i → (setFirstVel l ballId v).get? k = l.get? k) := by
  intro l
  induction l with
  | nil => intro i b h; simp at h
  | cons a as ih =>
    intro i b h hid hprev
    cases i with
    | zero =>
      simp at h
      subst h
      rw [setFirstVel, if_pos hid]
      refine ⟨rfl, ?_⟩
      intro k hk
      cases k with
      | zero => exact absurd rfl hk
      | succ k2 => rfl
    | succ i2 =>
      have ha : a.id ≠ ballId := hprev 0 a (Nat.succ_pos i2) rfl
      rw [setFirstVel, if_neg ha]
      have hrec := ih i2 b (by simpa using h) hid
        (fun k bk hk hbk => hprev (k + 1) bk (Nat.succ_lt_succ hk) (by simpa using hbk))
      refine ⟨by simpa using hrec.1, ?_⟩
      intro k hk
      cases k with
      | zero => rfl
      | succ k2 => simpa using hrec.2 k2 (fun he => hk (by rw [he]))

/-- C7 (amended): `shoot` is a silent no-op when a simulation is in
progress or when no ball has the requested id; otherwise the first ball
with that id gets its velocity set to exactly the supplied vector — even
when that ball is dead (the source performs no `isDead` check) — and every
other ball and state field is unchanged. -/
theorem shoot_cases (sim : Bool) (s : GameState) (ballId : Int) (v : Vec2) :
    (sim = true → shoot sim s ballId v = s) ∧
    ((∀ b ∈ s.balls, b.id ≠ ballId) → shoot sim s ballId v = s) ∧
    (sim = false → ∀ i b, s.balls.get? i = some b → b.id = ballId →
      (∀ k bk, k < i → s.balls.get? k = some bk → bk.id ≠ ballId) →
      (shoot sim s ballId v).balls.get? i = some { b with vel := v } ∧
      (∀ k, k ≠ i → (shoot sim s ballId v).balls.get? k = s.balls.get? k)) ∧
    ((shoot sim s ballId v).walls = s.walls ∧ (shoot sim s ballId v).turn = s.turn ∧
      (shoot sim s ballId v).scores = s.scores ∧ (shoot sim s ballId v).status = s.status ∧
      (shoot sim s ballId v).winner = s.winner) := by
  refine ⟨fun hs => by simp [shoot, hs], ?_, ?_, ?_⟩
  · intro hnone
    have hf : s.balls.find? (fun b => b.id == ballId) = none := by
      rw [List.find?_eq_none]
      intro x hx
      simpa using hnone x hx
    simp [shoot, hf]
  · intro hsim i b hi hid hprev
    have hmem : b ∈ s.balls := List.get?_mem hi
    have hspec := setFirstVel_spec ballId v s.balls i b hi hid hprev
    cases hf : s.balls.find? (fun b => b.id == ballId) with
    | none =>
      rw [List.find?_eq_none] at hf
      exact absurd (by simpa using hid) (by simpa using hf b hmem)
    | some c =>
      have hsh : (shoot sim s ballId v).balls = setFirstVel s.balls ballId v := by
        simp [shoot, hsim, hf]
      rw [hsh]
      exact hspec
  · unfold shoot
    split
    · exact ⟨rfl, rfl, rfl, rfl, rfl⟩
    · split
      · exact ⟨rfl, rfl, rfl, rfl, rfl⟩
      · exact ⟨rfl, rfl, rfl, rfl, rfl⟩

lemma is1 : isqrt 1 = 1 := by decide
lemma is3025 : isqrt 3025 = 55 := by decide
lemma is15379369 : isqrt 15379369 = 3921 := by decide
lemma is25 : isqrt 25 = 5 := by decide
lemma is7177041 : isqrt 7177041 = 2679 := by decide
lemma is100 : isqrt 100 = 10 := by decide
lemma is18033833 : isqrt 18033833 = 4246 := by decide
lemma is50 : isqrt 50 = 7 := by decide
lemma is15340274 : isqrt 15340274 = 3916 := by decide
lemma is7123561 : isqrt 7123561 = 2669 := by decide
lemma is18007093 : isqrt 18007093 = 4243 := by decide
lemma is1038361 : isqrt 1038361 = 1019 := by decide
lemma is2500 : isqrt 2500 = 50 := by decide
lemma is585225 : isqrt 585225 = 765 := by decide
lemma is4 : isqrt 4 = 2 := by decide
lemma is275625 : isqrt 275625 = 525 := by decide
lemma is8100 : isqrt 8100 = 90 := by decide

set_option maxHeartbeats 2000000 in
lemma phaseA : ballPhase eW sqrtQ ballA = (ballA, []) := by
  norm_num [ballPhase, integrateBall, ballWalls, boundsCheck, outOfBounds, ballA,
    eW, mkEngine, mkBounds, createWalls, mathMin,
    checkWallCollision, wallDistance, wallDistX, wallDistY, wallTestX, wallTestY,
    wallNormal, mathSign, Vec2.add, Vec2.mult, Vec2.mag, Vec2.dot, Vec2.sub,
    FRICTION, MIN_VELOCITY, WALL_BOUNCE, sqrtQ, List.foldl,
    is1, is3025, is15379369, is25, is7177041, is100, is18033833, is50]

set_option maxHeartbeats 2000000 in
lemma phaseB : ballPhase eW sqrtQ ballB = (ballB, []) := by
  norm_num [ballPhase, integrateBall, ballWalls, boundsCheck, outOfBounds, ballB,
    eW, mkEngine, mkBounds, createWalls, mathMin,
    checkWallCollision, wallDistance, wallDistX, wallDistY, wallTestX, wallTestY,
    wallNormal, mathSign, Vec2.add, Vec2.mult, Vec2.mag, Vec2.dot, Vec2.sub,
    FRICTION, MIN_VELOCITY, WALL_BOUNCE, sqrtQ, List.foldl,
    is1, is3025, is15340274, is25, is7123561, is100, is18007093, is50]

set_option maxHeartbeats 2000000 in
lemma phaseC : ballPhase eW sqrtQ cA = (cA, []) := by
  norm_num [ballPhase, integrateBall, ballWalls, boundsCheck, outOfBounds, cA,
    eW, mkEngine, mkBounds, createWalls, mathMin,
    checkWallCollision, wallDistance, wallDistX, wallDistY, wallTestX, wallTestY,
    wallNormal, mathSign, Vec2.add, Vec2.mult, Vec2.mag, Vec2.dot, Vec2.sub,
    FRICTION, MIN_VELOCITY, WALL_BOUNCE, sqrtQ, List.foldl,
    is1, is585225, is4, is275625]

set_option maxHeartbeats 2000000 in
lemma colS5 : checkBallCollisions sqrtQ [ballA, ballB] = [ballA2, ballB2] := by
  norm_num [checkBallCollisions, pairPass, upto, List.foldl, staticPair, dynamicPair,
    resolveDynamic, collNormal, relSpeed, getB, ballA, ballB, ballA2, ballB2,
    dummyBall, List.getD, List.get?, Vec2.sub, Vec2.add, Vec2.mult, Vec2.mag,
    Vec2.dist, Vec2.dot, Vec2.norm, BALL_BOUNCE, sqrtQ,
    is1, is1038361, is2500, List.set]

set_option maxHeartbeats 2000000 in
lemma updS5 : (update eW sqrtQ S5).1.balls = [ballA2, ballB2] := by
  have hub : updateBalls eW sqrtQ S5.balls = ([ballA, ballB], []) := by
    simp [S5, updateBalls, phaseA, phaseB]
  rw [update_balls, hub, colS5]
lemma beq21 : (((2 : Int) == 1) = false) := by decide
lemma beq12 : (((1 : Int) == 2) = false) := by decide
lemma beq11 : (((1 : Int) == 1) = true) := by decide
lemma beq22 : (((2 : Int) == 2) = true) := by decide

lemma staticPair_length (sq : ℚ → ℚ) (bs : List Ball) (i j : Nat) :
    (staticPair sq bs i j).length = bs.length := by
  simp only [staticPair]
  split_ifs <;> simp

lemma dynamicPair_length (sq : ℚ → ℚ) (bs : List Ball) (i j : Nat) :
    (dynamicPair sq bs i j).length = bs.length := by
  simp [dynamicPair]

lemma pairPass_length (f : List Ball → Nat → Nat → List Ball)
    (hf : ∀ bs i j, (f bs i j).length = bs.length) (bs : List Ball) :
    (pairPass f bs).length = bs.length := by
  unfold pairPass
  refine foldl_pres (fun l : List Ball => l.length = bs.length) _ ?_ _ _ rfl
  intro acc i hacc
  refine foldl_pres (fun l : List Ball => l.length = bs.length) _ ?_ _ _ hacc
  intro acc2 j hacc2
  by_cases hij : i < j
  · rw [if_pos hij, hf]
    exact hacc2
  · rw [if_neg hij]
    exact hacc2

lemma checkBallCollisions_length (sq : ℚ → ℚ) (bs : List Ball) :
    (checkBallCollisions sq bs).length = bs.length := by
  unfold checkBallCollisions
  rw [pairPass_length _ (dynamicPair_length sq),
    pairPass_length _ (staticPair_length sq), pairPass_length _ (staticPair_length sq)]

lemma checkBallCollisions_all_dead (sq : ℚ → ℚ) (bs : List Ball)
    (h : ∀ b ∈ bs, b.isDead = true) : checkBallCollisions sq bs = bs := by
  apply List.ext_get?
  intro n
  cases hn : bs.get? n with
  | none =>
    rw [List.get?_eq_none] at hn ⊢
    rw [checkBallCollisions_length]
    exact hn
  | some b =>
    exact checkBallCollisions_dead_pres (h b (List.get?_mem hn)) hn

lemma phase_dA : ballPhase eW sqrtQ dA = (dA9, []) := by
  rw [ballPhase_dead eW sqrtQ dA rfl]
  norm_num [dA, dA9]

lemma phase_dB : ballPhase eW sqrtQ dB = (dB9, []) := by
  rw [ballPhase_dead eW sqrtQ dB rfl]
  norm_num [dB, dB9]

lemma update_parts (e : GameEngine) (sq : ℚ → ℚ) (s : GameState) :
    update e sq s =
      ((updateScores { s with balls := checkBallCollisions sq (updateBalls e sq s.balls).1 }).1,
        (updateBalls e sq s.balls).2 ++
          (updateScores { s with balls := checkBallCollisions sq (updateBalls e sq s.balls).1 }).2) :=
  rfl

lemma updS0 : update eW sqrtQ S0 =
    (⟨[dA9, dB9], [], 1, ⟨0, 0⟩, Status.finished, some 2⟩, []) := by
  have h1 : updateBalls eW sqrtQ S0.balls = ([dA9, dB9], []) := by
    simp [S0, updateBalls, phase_dA, phase_dB]
  have h2 : checkBallCollisions sqrtQ [dA9, dB9] = [dA9, dB9] := by
    apply checkBallCollisions_all_dead
    intro b hb
    simp only [List.mem_cons, List.not_mem_nil, or_false] at hb
    rcases hb with rfl | rfl <;> rfl
  rw [update_parts, h1, h2]
  norm_num [updateScores, countAlive, List.filter, S0, dA9, dB9, beq21, beq12, beq11, beq22]

lemma updS81 : update eW sqrtQ S81 =
    (⟨[cA, dB9], [], 1, ⟨1, 0⟩, Status.finished, some 1⟩, [GameEvent.win]) := by
  have h1 : updateBalls eW sqrtQ S81.balls = ([cA, dB9], []) := by
    simp [S81, updateBalls, phaseC, phase_dB]
  have h2 : checkBallCollisions sqrtQ [cA, dB9] = [cA, dB9] := by
    norm_num [checkBallCollisions, pairPass, upto, List.foldl, staticPair,
      dynamicPair, resolveDynamic, getB, dummyBall, List.getD, List.get?,
      List.set, cA, dB9]
  rw [update_parts, h1, h2]
  norm_num [updateScores, countAlive, List.filter, S81, cA, dB9, beq21, beq12, beq11, beq22]

lemma beq55 : (((5 : Int) == 5) = true) := by decide
lemma beq542 : (((5 : Int) == 42) = false) := by decide

lemma shootS7 : shoot false S7 5 ⟨3, 4⟩ =
    ⟨[⟨5, 1, ⟨0, 0⟩, ⟨3, 4⟩, 10, true, 1, 0, 0⟩], [], 1, ⟨7, 7⟩, Status.playing, none⟩ := by
  norm_num [shoot, S7, d5, List.find?, setFirstVel, beq55]

theorem update_deterministic_witness :
    update eW sqrtQ S5 = update eW sqrtQ S5copy ∧
    stepN eW sqrtQ 2 S5 = stepN eW sqrtQ 2 S5copy ∧
    stepN eW sqrtQ 2 (shoot false S5 0 ⟨3, 4⟩) =
      stepN eW sqrtQ 2 (shoot false S5copy 0 ⟨3, 4⟩) :=
  update_deterministic eW sqrtQ 2 S5 S5copy 0 ⟨3, 4⟩ rfl rfl rfl rfl rfl rfl

theorem ball_ball_impulse_witness :
    ((resolveDynamic sqrtQ cb1 cb2).1.vel =
      Vec2.add cb1.vel (Vec2.mult (collNormal sqrtQ cb1 cb2)
        ((1 + BALL_BOUNCE) * |relSpeed sqrtQ cb1 cb2| / 2)) ∧
     (resolveDynamic sqrtQ cb1 cb2).2.vel =
      Vec2.sub cb2.vel (Vec2.mult (collNormal sqrtQ cb1 cb2)
        ((1 + BALL_BOUNCE) * |relSpeed sqrtQ cb1 cb2| / 2)) ∧
     Vec2.dot (Vec2.sub (resolveDynamic sqrtQ cb1 cb2).1.vel
        (resolveDynamic sqrtQ cb1 cb2).2.vel) (collNormal sqrtQ cb1 cb2) =
      -(BALL_BOUNCE * relSpeed sqrtQ cb1 cb2) ∧
     |Vec2.dot (Vec2.sub (resolveDynamic sqrtQ cb1 cb2).1.vel
        (resolveDynamic sqrtQ cb1 cb2).2.vel) (collNormal sqrtQ cb1 cb2)| ≤
      |relSpeed sqrtQ cb1 cb2|) ∧
    resolveDynamic sqrtQ cb1s cb2s = (cb1s, cb2s) ∧
    resolveDynamic sqrtQ cb1d cb2 = (cb1d, cb2) := by
  have hdist : Vec2.dist sqrtQ cb1.pos cb2.pos ≤ cb1.r + cb2.r + 1 := by
    norm_num [Vec2.dist, cb1, cb2, sqrtQ, is25, is1]
  have hn : collNormal sqrtQ cb1 cb2 = ⟨-1, 0⟩ := by
    norm_num [collNormal, Vec2.norm, Vec2.mag, Vec2.sub, Vec2.mult, cb1, cb2,
      sqrtQ, is25, is1]
  have hsp : relSpeed sqrtQ cb1 cb2 = -2 := by
    unfold relSpeed
    rw [hn]
    norm_num [Vec2.dot, Vec2.sub, cb1, cb2]
  have hsq : sqrtQ (Vec2.dot (Vec2.sub cb1.pos cb2.pos) (Vec2.sub cb1.pos cb2.pos)) *
      sqrtQ (Vec2.dot (Vec2.sub cb1.pos cb2.pos) (Vec2.sub cb1.pos cb2.pos)) =
      Vec2.dot (Vec2.sub cb1.pos cb2.pos) (Vec2.sub cb1.pos cb2.pos) := by
    norm_num [Vec2.dot, Vec2.sub, cb1, cb2, sqrtQ, is25, is1]
  have hsps : 0 < relSpeed sqrtQ cb1s cb2s := by
    norm_num [relSpeed, collNormal, Vec2.norm, Vec2.mag, Vec2.sub, Vec2.mult,
      Vec2.dot, cb1s, cb2s, sqrtQ, is25, is1]
  obtain ⟨hA, hB, hC⟩ := (ball_ball_impulse sqrtQ cb1 cb2).1 rfl rfl hdist
    (by rw [hsp]; norm_num)
  obtain ⟨hC1, hC2⟩ := hC hsq
  exact ⟨⟨hA, hB, hC1, hC2⟩,
    (ball_ball_impulse sqrtQ cb1s cb2s).2.1 hsps,
    (ball_ball_impulse sqrtQ cb1d cb2).2.2 (Or.inl rfl)⟩

theorem wall_bounce_witness :
    ((checkWallCollision sqrtQ wb1 wTest).1.vel =
      Vec2.mult (Vec2.sub wb1.vel (Vec2.mult (wallNormal wb1 wTest)
        (2 * Vec2.dot wb1.vel (wallNormal wb1 wTest)))) WALL_BOUNCE ∧
     (checkWallCollision sqrtQ wb1 wTest).2 = [GameEvent.wall]) ∧
    ((checkWallCollision sqrtQ wb2 wTest).1.vel = wb2.vel ∧
     (checkWallCollision sqrtQ wb2 wTest).2 = []) ∧
    checkWallCollision sqrtQ wb3 wTest = (wb3, []) := by
  have hd1 : wallDistance sqrtQ wb1 wTest ≤ wb1.r := by
    norm_num [wallDistance, wallDistX, wallDistY, wallTestX, wallTestY,
      wb1, wTest, sqrtQ, is4, is1]
  have hn1 : wallNormal wb1 wTest = ⟨1, 0⟩ := by
    norm_num [wallNormal, wallDistX, wallDistY, wallTestX, wallTestY,
      mathSign, wb1, wTest]
  have hd2 : wallDistance sqrtQ wb2 wTest ≤ wb2.r := by
    norm_num [wallDistance, wallDistX, wallDistY, wallTestX, wallTestY,
      wb2, wTest, sqrtQ, is4, is1]
  have hn2 : wallNormal wb2 wTest = ⟨1, 0⟩ := by
    norm_num [wallNormal, wallDistX, wallDistY, wallTestX, wallTestY,
      mathSign, wb2, wTest]
  have hd3 : ¬ wallDistance sqrtQ wb3 wTest ≤ wb3.r := by
    norm_num [wallDistance, wallDistX, wallDistY, wallTestX, wallTestY,
      wb3, wTest, sqrtQ, is8100, is1]
  exact ⟨((wall_bounce sqrtQ wb1 wTest).1 hd1).1
      (by rw [hn1]; norm_num [Vec2.dot, wb1]),
    ((wall_bounce sqrtQ wb2 wTest).1 hd2).2
      (by rw [hn2]; norm_num [Vec2.dot, wb2]),
    (wall_bounce sqrtQ wb3 wTest).2 hd3⟩

/-- C5 counterexample: two overlapping living balls near the left arena
edge; the static ball-ball correction (which runs after the bounds check)
pushes ball 0 across the edge, so `update` returns a state with a living
ball whose center is outside the arena rectangle. -/
theorem containment_cex :
    (getB (update eW sqrtQ S5).1.balls 0).isDead = false ∧
    (getB (update eW sqrtQ S5).1.balls 0).pos.x < eW.bounds.cx - eW.bounds.rx := by
  rw [updS5]
  constructor
  · rfl
  · norm_num [getB, List.getD, ballA2, eW, mkEngine, mkBounds, mathMin]

theorem containment_phase_witness :
    eW.bounds.cx - eW.bounds.rx ≤ (ballPhase eW sqrtQ cA).1.pos.x ∧
    (ballPhase eW sqrtQ cA).1.pos.x ≤ eW.bounds.cx + eW.bounds.rx ∧
    eW.bounds.cy - eW.bounds.ry ≤ (ballPhase eW sqrtQ cA).1.pos.y ∧
    (ballPhase eW sqrtQ cA).1.pos.y ≤ eW.bounds.cy + eW.bounds.ry :=
  containment_phase eW sqrtQ cA (by rw [phaseC]; rfl)

theorem dead_stays_dead_witness :
    (update eW sqrtQ S0).1.balls.get? 0 =
      some { dA with scale := if 0 < dA.scale then dA.scale - 1 / 10 else dA.scale } ∧
    (getB (update eW sqrtQ S0).1.balls 0).isDead = true ∧
    (getB (update eW sqrtQ S0).1.balls 0).pos = dA.pos ∧
    (getB (update eW sqrtQ S0).1.balls 0).vel = dA.vel ∧
    (getB (update eW sqrtQ S0).1.balls 0).scale ≤ dA.scale :=
  dead_stays_dead eW sqrtQ S0 0 dA rfl rfl

/-- C7 counterexample: `shoot` on a dead ball is not a no-op — the dead
ball's velocity is set to the supplied vector and the state changes. -/
theorem shoot_dead_cex :
    d5.isDead = true ∧ (getB S7.balls 0).vel = ⟨0, 0⟩ ∧
    (getB (shoot false S7 5 ⟨3, 4⟩).balls 0).vel = ⟨3, 4⟩ ∧
    shoot false S7 5 ⟨3, 4⟩ ≠ S7 := by
  refine ⟨rfl, rfl, ?_, ?_⟩
  · rw [shootS7]
    rfl
  · rw [shootS7]
    intro h
    have hx := congrArg (fun st : GameState => (getB st.balls 0).vel.x) h
    norm_num [S7, d5, getB, List.getD] at hx

theorem shoot_cases_witness :
    shoot true S7 5 ⟨3, 4⟩ = S7 ∧
    shoot false S7 42 ⟨3, 4⟩ = S7 ∧
    (shoot false S7 5 ⟨3, 4⟩).balls.get? 0 = some { d5 with vel := ⟨3, 4⟩ } ∧
    (shoot false S7 5 ⟨3, 4⟩).winner = S7.winner := by
  refine ⟨(shoot_cases true S7 5 ⟨3, 4⟩).1 rfl, ?_, ?_, (shoot_cases false S7 5 ⟨3, 4⟩).2.2.2.2.2.2.2⟩
  · apply (shoot_cases false S7 42 ⟨3, 4⟩).2.1
    intro b hb
    have : b = d5 := by simpa [S7] using hb
    rw [this]
    norm_num [d5]
  · exact ((shoot_cases false S7 5 ⟨3, 4⟩).2.2.1 rfl 0 d5 rfl rfl
      (fun k bk hk _ => absurd hk (Nat.not_lt_zero k))).1

/-- C8 counterexample: with every ball dead, the returned state has
`scores.p2 = 0` but winner 2, refuting the claim's `p2 = 0 → winner 1`. -/
theorem victory_cex :
    (update eW sqrtQ S0).1.scores.p2 = 0 ∧
    (update eW sqrtQ S0).1.winner = some 2 ∧
    (update eW sqrtQ S0).1.winner ≠ some 1 := by
  rw [updS0]
  refine ⟨rfl, rfl, by decide⟩

theorem victory_rule_witness :
    ((update eW sqrtQ S0).1.status = Status.finished ∧
      (update eW sqrtQ S0).1.winner = some 2) ∧
    ((update eW sqrtQ S81).1.status = Status.finished ∧
      (update eW sqrtQ S81).1.winner = some 1) ∧
    GameEvent.win ∈ (update eW sqrtQ S81).2 := by
  refine ⟨(victory_rule eW sqrtQ S0).1 (by rw [updS0]), ?_, ?_⟩
  · exact (victory_rule eW sqrtQ S81).2.1 (by rw [updS81]; norm_num) (by rw [updS81])
  · exact ((victory_rule eW sqrtQ S81).2.2).mpr
      ⟨by rw [updS81]; norm_num, by rw [updS81]⟩

theorem degenerate_geometry_witness :
    Vec2.norm sqrtQ ⟨0, 0⟩ = (⟨0, 0⟩ : Vec2) ∧
    (checkWallCollision sqrtQ wb4 wTest).1.pos = ⟨wb4.pos.x + wb4.r, wb4.pos.y⟩ ∧
    (checkWallCollision sqrtQ wb4 wTest).1.vel = wb4.vel ∧
    (checkWallCollision sqrtQ wb4 wTest).2 = [] :=
  degenerate_geometry sqrtQ wb4 wTest (by norm_num [sqrtQ])
    (by norm_num [wallTestX, wb4, wTest]) (by norm_num [wallTestY, wb4, wTest])
    (by norm_num [wb4])

theorem double_elim_witness :
    (update eW sqrtQ S0).1.status = Status.finished ∧
    (update eW sqrtQ S0).1.winner = some 2 ∧
    GameEvent.win ∉ (update eW sqrtQ S0).2 :=
  double_elim eW sqrtQ S0 (by rw [updS0]) (by rw [updS0])

end Zoo
